import Mathlib

/-!
Verification of the choremint points-ledger and goal-progression subsystem.

The definitions below are a shallow embedding of:
  * the `points_ledger` table and the `child_points_view` view
    (src/unnamed/part_000),
  * the `update_child_points` trigger function on submissions
    (src/unnamed/part_000),
  * the `character_progress` table with its two trigger functions
    `calculate_character_level`, `update_character_progress` and
    `on_goal_achieved_update_character`
    (src/supabase/sql/add_character_progress.sql),
  * the goal-achievement detection and rollover sequence, which has no
    code under src/ and is modelled from the spec (sections 4.2-4.4).
-/

/-- Reason recorded on a `points_ledger` row. -/
inductive Reason where
  | chore_approved
  | goal_achieved_reset
  | manual_adjustment
deriving DecidableEq, Repr

/-- A `points_ledger` row (src/unnamed/part_000 lines 48-55):
child_id, signed delta, reason, optional submission reference, created_at. -/
structure LedgerEntry where
  child_id : Nat
  delta : Int
  reason : Reason
  submission_id : Option Nat
  created_at : Nat
deriving DecidableEq, Repr

/-- A `goal_history` row (fields as read by src/unnamed/part_006 lines 21-27):
goal_points at achievement, points at achievement, achieved_at. -/
structure GoalHistoryEntry where
  child_id : Nat
  goal_points : Int
  points_at_achievement : Int
  achieved_at : Nat
deriving DecidableEq, Repr

/-- A `character_progress` row (add_character_progress.sql lines 7-26):
three slot levels plus the current goal number. -/
structure CharacterRow where
  slot1_level : Nat
  slot2_level : Nat
  slot3_level : Nat
  current_goal_number : Nat
deriving DecidableEq, Repr

/-- Column defaults of `character_progress` (slot levels DEFAULT 1,
current_goal_number DEFAULT 1). -/
def defaultCharacterRow : CharacterRow :=
  { slot1_level := 1, slot2_level := 1, slot3_level := 1, current_goal_number := 1 }

/-- The database state touched by the subsystem: the `children` columns
`goal_points` (nullable) and `points` (the cached counter), the append-only
`points_ledger` and `goal_history` tables, and the per-child
`character_progress` row. -/
structure DB where
  goal_points : Nat → Option Int
  points : Nat → Int
  ledger : List LedgerEntry
  goal_history : List GoalHistoryEntry
  character_progress : Nat → Option CharacterRow

/-- `child_points_view` / SumFor (src/unnamed/part_000 lines 262-269, and the
inline SUM in add_character_progress.sql lines 86-88):
`COALESCE(SUM(delta), 0)` over the rows of one child. -/
def sumFor (child : Nat) (ledger : List LedgerEntry) : Int :=
  ((ledger.filter (fun e => e.child_id == child)).map (fun e => e.delta)).sum

/-- Number of `goal_history` rows for a child
(add_character_progress.sql lines 91-93). -/
def goalCount (child : Nat) (history : List GoalHistoryEntry) : Nat :=
  (history.filter (fun g => g.child_id == child)).length

/-- `Append` of the Ledger Store: persist one immutable row at the end of the
table (an INSERT into `points_ledger`). -/
def appendEntry (e : LedgerEntry) (ledger : List LedgerEntry) : List LedgerEntry :=
  ledger ++ [e]

/-- A finite sequence of ledger appends applied in order. -/
def applyAppends (es : List LedgerEntry) (ledger : List LedgerEntry) : List LedgerEntry :=
  es.foldl (fun acc e => appendEntry e acc) ledger

/-- `calculate_character_level` (add_character_progress.sql lines 50-65):
the evolution level for a given progress percentage. -/
def calculate_character_level (progress_percent : ℚ) : Nat :=
  if progress_percent ≤ 0 then 1
  else if progress_percent ≤ 33 then 2
  else if progress_percent < 67 then 3
  else if progress_percent < 100 then 4
  else 5

/-- The progress percentage as computed inside `update_character_progress`
(add_character_progress.sql lines 109-114): `(points / goal) * 100` when the
goal is positive, else 0. -/
def progressPercent (balance goal : Int) : ℚ :=
  if goal > 0 then ((balance : ℚ) / (goal : ℚ)) * 100 else 0

/-- `INSERT INTO character_progress (child_id, current_goal_number) ...
ON CONFLICT (child_id) DO UPDATE SET current_goal_number = ...`
(add_character_progress.sql lines 101-105, 120-124, 177-181): create the row
with column defaults if absent, then set its goal number. -/
def upsertGoalNumber (child goalNum : Nat)
    (m : Nat → Option CharacterRow) : Nat → Option CharacterRow :=
  fun c =>
    if c = child then
      match m child with
      | none => some { defaultCharacterRow with current_goal_number := goalNum }
      | some r => some { r with current_goal_number := goalNum }
    else m c

/-- `UPDATE character_progress SET slotN_level = GREATEST(slotN_level, lvl)`:
the three branches of add_character_progress.sql lines 127-139. -/
def bumpSlotLevel (slot lvl : Nat) (r : CharacterRow) : CharacterRow :=
  if slot = 1 then { r with slot1_level := max r.slot1_level lvl }
  else if slot = 2 then { r with slot2_level := max r.slot2_level lvl }
  else if slot = 3 then { r with slot3_level := max r.slot3_level lvl }
  else r

/-- `UPDATE character_progress SET slotN_level = lvl` unconditionally:
the three branches of add_character_progress.sql lines 184-196. -/
def forceSlotLevel (slot lvl : Nat) (r : CharacterRow) : CharacterRow :=
  if slot = 1 then { r with slot1_level := lvl }
  else if slot = 2 then { r with slot2_level := lvl }
  else if slot = 3 then { r with slot3_level := lvl }
  else r

/-- Apply f to the character_progress row of one child
(the `WHERE child_id = NEW.child_id` clause of the UPDATEs). -/
def mapRow (child : Nat) (f : CharacterRow → CharacterRow)
    (m : Nat → Option CharacterRow) : Nat → Option CharacterRow :=
  fun c => if c = child then (m child).map f else m c

/-- The slot-N level column of a character_progress row; the table has
columns for slots 1-3 only, so any other slot number has no column. -/
def getSlotLevel (slot : Nat) (r : CharacterRow) : Option Nat :=
  if slot = 1 then some r.slot1_level
  else if slot = 2 then some r.slot2_level
  else if slot = 3 then some r.slot3_level
  else none

/-- `update_character_progress` (add_character_progress.sql lines 70-143):
body of the AFTER INSERT trigger on points_ledger, run on a DB in which the
NEW row is already present. -/
def update_character_progress (new : LedgerEntry) (db : DB) : DB :=
  let child_goal_points : Int := (db.goal_points new.child_id).getD 100
  let child_current_points : Int := sumFor new.child_id db.ledger
  let goal_count : Nat := goalCount new.child_id db.goal_history
  let current_slot : Nat := goal_count + 1
  if current_slot > 3 then
    { db with character_progress :=
        upsertGoalNumber new.child_id current_slot db.character_progress }
  else
    let progress_percent : ℚ := progressPercent child_current_points child_goal_points
    let new_level : Nat := calculate_character_level progress_percent
    let m1 := upsertGoalNumber new.child_id current_slot db.character_progress
    { db with character_progress :=
        mapRow new.child_id (bumpSlotLevel current_slot new_level) m1 }

/-- `on_goal_achieved_update_character` (add_character_progress.sql lines
157-200): body of the AFTER INSERT trigger on goal_history, run on a DB in
which the NEW row is already present. -/
def on_goal_achieved_update_character (new : GoalHistoryEntry) (db : DB) : DB :=
  let goal_count : Nat := goalCount new.child_id db.goal_history
  let slot_number : Nat := goal_count
  if slot_number > 3 then db
  else
    let m1 := upsertGoalNumber new.child_id (slot_number + 1) db.character_progress
    { db with character_progress :=
        mapRow new.child_id (forceSlotLevel slot_number 5) m1 }

/-- INSERT one points_ledger row and run the AFTER INSERT trigger
`on_points_change_update_character` (add_character_progress.sql lines
148-152). -/
def ledgerInsert (e : LedgerEntry) (db : DB) : DB :=
  update_character_progress e { db with ledger := appendEntry e db.ledger }

/-- INSERT one goal_history row and run the AFTER INSERT trigger
`on_goal_achieved_character` (add_character_progress.sql lines 205-209). -/
def goalInsert (g : GoalHistoryEntry) (db : DB) : DB :=
  on_goal_achieved_update_character g { db with goal_history := db.goal_history ++ [g] }

/-- `update_child_points` (src/unnamed/part_000 lines 80-117): when a
submission's status becomes approved and the old status was not approved,
insert a chore_approved ledger row worth COALESCE(chore.points, 10) and
re-sync the cached children.points column to the ledger sum. -/
def update_child_points (old_status : Option String) (new_status : String)
    (child submission : Nat) (chore_points : Option Int) (now : Nat)
    (db : DB) : DB :=
  if new_status = "approved" ∧ old_status ≠ some "approved" then
    let points_value : Int := chore_points.getD 10
    let db1 := ledgerInsert
      { child_id := child, delta := points_value, reason := Reason.chore_approved,
        submission_id := some submission, created_at := now } db
    { db1 with points := fun c => if c = child then sumFor child db1.ledger else db1.points c }
  else db

/-- Modelled from the spec: the 60-second dedup check of the
Goal-Achievement Detector (spec 4.2 step 3); no detector code exists under
src/. A hit is a goal_history entry for the same child with the same balance
at achievement whose achieved_at lies within 60 seconds of now. -/
def dedupHit (child : Nat) (balance : Int) (now : Nat)
    (history : List GoalHistoryEntry) : Bool :=
  history.any (fun g =>
    g.child_id == child && g.points_at_achievement == balance
      && decide (now - g.achieved_at ≤ 60) && decide (g.achieved_at - now ≤ 60))

/-- Modelled from the spec: the achievement unit (spec 4.2 step 4 with 4.3,
4.4), given the balance observed in step 1 - write the GoalHistory entry
(whose trigger advances the slot machinery), then append the compensating
rollover ledger entry with delta = -threshold and reason
goal_achieved_reset. -/
def achieveGoal (child : Nat) (threshold observed_balance : Int) (now : Nat)
    (db : DB) : DB :=
  let db1 := goalInsert
    { child_id := child, goal_points := threshold,
      points_at_achievement := observed_balance, achieved_at := now } db
  ledgerInsert
    { child_id := child, delta := -threshold, reason := Reason.goal_achieved_reset,
      submission_id := none, created_at := now } db1

/-- Modelled from the spec: the Goal-Achievement Detector (spec 4.2) given
the balance it read in step 1. No-op when the threshold is not positive or
the balance has not reached it, or when the dedup check finds the crossing
already handled; otherwise perform the achievement. -/
def detectGoalObserved (child : Nat) (threshold observed_balance : Int)
    (now : Nat) (db : DB) : DB :=
  if threshold ≤ 0 ∨ observed_balance < threshold then db
  else if dedupHit child observed_balance now db.goal_history then db
  else achieveGoal child threshold observed_balance now db

/-- Modelled from the spec: the detector as invoked after an append - step 1
reads the balance with SumFor, then the rest of the sequence runs on that
observation. -/
def detectGoalAchievement (child : Nat) (threshold : Int) (now : Nat) (db : DB) : DB :=
  detectGoalObserved child threshold (sumFor child db.ledger) now db

/-- One write performed by `on_goal_achieved_update_character` on the
character_progress row. -/
inductive ProgressWrite where
  | advanceGoalNumber (child goalNum : Nat)
  | writeSlotLevel (child slot lvl : Nat)
deriving DecidableEq, Repr

/-- The writes of `on_goal_achieved_update_character` in source order
(add_character_progress.sql lines 157-200): first the upsert advancing
current_goal_number (lines 177-181), then the unconditional slot-level write
(lines 184-196). -/
def on_goal_achieved_writes (new : GoalHistoryEntry) (db : DB) : List ProgressWrite :=
  let goal_count : Nat := goalCount new.child_id db.goal_history
  let slot_number : Nat := goal_count
  if slot_number > 3 then []
  else [ProgressWrite.advanceGoalNumber new.child_id (slot_number + 1),
        ProgressWrite.writeSlotLevel new.child_id slot_number 5]

/-- Interpretation of one ProgressWrite on the character_progress map. -/
def applyProgressWrite (m : Nat → Option CharacterRow) :
    ProgressWrite → (Nat → Option CharacterRow)
  | ProgressWrite.advanceGoalNumber child goalNum => upsertGoalNumber child goalNum m
  | ProgressWrite.writeSlotLevel child slot lvl => mapRow child (forceSlotLevel slot lvl) m

/-- Does the goal-number advance write. -/
def isAdvanceWrite : ProgressWrite → Bool
  | ProgressWrite.advanceGoalNumber _ _ => true
  | ProgressWrite.writeSlotLevel _ _ _ => false

/-- Does a slot-level write of level 5. -/
def isLevel5Write : ProgressWrite → Bool
  | ProgressWrite.advanceGoalNumber _ _ => false
  | ProgressWrite.writeSlotLevel _ _ lvl => lvl == 5

/-- Whether some write matching p occurs strictly before some write
matching q in a trace. -/
def occursBefore (p q : ProgressWrite → Bool) (t : List ProgressWrite) : Bool :=
  t.any p && t.any q && decide (t.findIdx p < t.findIdx q)

/-- The level of a slot for a child as read from a character_progress map:
the stored column when the row exists, else the column default 1. -/
def slotLevelsOf (m : Nat → Option CharacterRow) (c slot : Nat) : Nat :=
  ((m c).bind (getSlotLevel slot)).getD 1

/-- The observed level of a slot for a child: the stored column when a
character_progress row exists, else the column default 1. -/
def obsLevel (child slot : Nat) (db : DB) : Nat :=
  slotLevelsOf db.character_progress child slot

/-- The CHECK constraints `slotN_level BETWEEN 1 AND 5`
(add_character_progress.sql lines 17-19), upper halves. -/
def RowLevelsOk (r : CharacterRow) : Prop :=
  r.slot1_level ≤ 5 ∧ r.slot2_level ≤ 5 ∧ r.slot3_level ≤ 5

/-- Every stored character_progress row satisfies the level CHECK bound. -/
def LevelsOk (db : DB) : Prop :=
  ∀ c r, db.character_progress c = some r → RowLevelsOk r

/-- An operation of the subsystem that inserts into an append-only table:
a points_ledger append (with its trigger) or a goal achievement recorded in
goal_history (with its trigger). -/
inductive Event where
  | ledgerAppend (e : LedgerEntry)
  | goalAchieved (g : GoalHistoryEntry)

/-- Run one event against the database. -/
def stepEvent (db : DB) : Event → DB
  | Event.ledgerAppend e => ledgerInsert e db
  | Event.goalAchieved g => goalInsert g db

/-- Run a sequence of events in order. -/
def runEvents (evs : List Event) (db : DB) : DB :=
  evs.foldl stepEvent db

/-- Number of compensating rollover rows (reason goal_achieved_reset) for a
child in the ledger. -/
def rolloverCount (child : Nat) (ledger : List LedgerEntry) : Nat :=
  (ledger.filter (fun e =>
    e.child_id == child && decide (e.reason = Reason.goal_achieved_reset))).length

lemma applyAppends_eq (es ledger : List LedgerEntry) :
    applyAppends es ledger = ledger ++ es := by
  induction es generalizing ledger with
  | nil => simp [applyAppends]
  | cons e es ih =>
      simp [applyAppends, appendEntry] at *
      simp [ih]

lemma sumFor_perm {l l' : List LedgerEntry} (child : Nat) (h : l.Perm l') :
    sumFor child l = sumFor child l' := by
  unfold sumFor
  exact List.Perm.sum_eq ((h.filter _).map _)

lemma sumFor_append (child : Nat) (l₁ l₂ : List LedgerEntry) :
    sumFor child (l₁ ++ l₂) = sumFor child l₁ + sumFor child l₂ := by
  simp [sumFor]

lemma sumFor_nil (child : Nat) : sumFor child [] = 0 := rfl

lemma sumFor_singleton (child : Nat) (e : LedgerEntry) :
    sumFor child [e] = if e.child_id = child then e.delta else 0 := by
  by_cases h : e.child_id = child <;> simp [sumFor, h]

/-- C1. For every child and every finite sequence of appends, the projected
balance equals the arithmetic sum of the deltas appended for that child, is
invariant under reordering of the appends, and is 0 for a child with no
entries. -/
theorem C1_sum_invariant (child : Nat) (es es' : List LedgerEntry) :
    sumFor child (applyAppends es []) =
      ((es.filter (fun e => e.child_id == child)).map (fun e => e.delta)).sum
    ∧ (es.Perm es' →
        sumFor child (applyAppends es []) = sumFor child (applyAppends es' []))
    ∧ ((∀ e ∈ es, e.child_id ≠ child) → sumFor child (applyAppends es []) = 0) := by
  refine ⟨?_, ?_, ?_⟩
  · simp [applyAppends_eq, sumFor]
  · intro hperm
    simp only [applyAppends_eq, List.nil_append]
    exact sumFor_perm child hperm
  · intro hnone
    simp only [applyAppends_eq, List.nil_append, sumFor]
    have : es.filter (fun e => e.child_id == child) = [] := by
      refine List.filter_eq_nil_iff.mpr ?_
      intro e he
      simpa using hnone e he
    simp [this]

/-- Witness for C1 at a concrete input: two appends for child 1 and one for
child 2, compared against a reordering. -/
theorem C1_sum_invariant_witness :
    sumFor 1 (applyAppends
        [⟨1, 10, Reason.chore_approved, none, 0⟩,
         ⟨2, 7, Reason.chore_approved, none, 1⟩,
         ⟨1, -3, Reason.manual_adjustment, none, 2⟩] []) = 7
    ∧ sumFor 1 (applyAppends
        [⟨1, 10, Reason.chore_approved, none, 0⟩,
         ⟨2, 7, Reason.chore_approved, none, 1⟩,
         ⟨1, -3, Reason.manual_adjustment, none, 2⟩] []) =
      sumFor 1 (applyAppends
        [⟨1, -3, Reason.manual_adjustment, none, 2⟩,
         ⟨1, 10, Reason.chore_approved, none, 0⟩,
         ⟨2, 7, Reason.chore_approved, none, 1⟩] []) := by
  constructor
  · have h := (C1_sum_invariant 1
      [⟨1, 10, Reason.chore_approved, none, 0⟩,
       ⟨2, 7, Reason.chore_approved, none, 1⟩,
       ⟨1, -3, Reason.manual_adjustment, none, 2⟩] []).1
    rw [h]; decide
  · exact (C1_sum_invariant 1
      [⟨1, 10, Reason.chore_approved, none, 0⟩,
       ⟨2, 7, Reason.chore_approved, none, 1⟩,
       ⟨1, -3, Reason.manual_adjustment, none, 2⟩]
      [⟨1, -3, Reason.manual_adjustment, none, 2⟩,
       ⟨1, 10, Reason.chore_approved, none, 0⟩,
       ⟨2, 7, Reason.chore_approved, none, 1⟩]).2.1 (by decide)

lemma calculate_character_level_bounds (p : ℚ) :
    1 ≤ calculate_character_level p ∧ calculate_character_level p ≤ 5 := by
  unfold calculate_character_level
  split_ifs <;> omega

/-- C5. The computed evolution level follows exactly the documented bands of
progressPercent = 100 * balance / goal_threshold (0 when the threshold is
not positive): level 1 for percent <= 0; level 2 for 0 < percent <= 33;
level 3 for 33 < percent < 67; level 4 for 67 <= percent < 100; level 5 for
percent >= 100. -/
theorem C5_level_bands (p : ℚ) (b g : Int) :
    (p ≤ 0 → calculate_character_level p = 1)
    ∧ (0 < p → p ≤ 33 → calculate_character_level p = 2)
    ∧ (33 < p → p < 67 → calculate_character_level p = 3)
    ∧ (67 ≤ p → p < 100 → calculate_character_level p = 4)
    ∧ (100 ≤ p → calculate_character_level p = 5)
    ∧ (g ≤ 0 → progressPercent b g = 0)
    ∧ (0 < g → progressPercent b g = 100 * (b : ℚ) / (g : ℚ)) := by
  refine ⟨?_, ?_, ?_, ?_, ?_, ?_, ?_⟩
  · intro h
    unfold calculate_character_level
    split_ifs <;> first | rfl | (exfalso; linarith)
  · intro h1 h2
    unfold calculate_character_level
    split_ifs <;> first | rfl | (exfalso; linarith)
  · intro h1 h2
    unfold calculate_character_level
    split_ifs <;> first | rfl | (exfalso; linarith)
  · intro h1 h2
    unfold calculate_character_level
    split_ifs <;> first | rfl | (exfalso; linarith)
  · intro h
    unfold calculate_character_level
    split_ifs <;> first | rfl | (exfalso; linarith)
  · intro h
    unfold progressPercent
    rw [if_neg (by exact not_lt.mpr h)]
  · intro h
    unfold progressPercent
    rw [if_pos (by exact h)]
    ring

/-- Witness for C5 at concrete inputs: percent 50 is level 3, and a balance
of 50 against threshold 100 gives percent 50. -/
theorem C5_level_bands_witness :
    calculate_character_level 50 = 3 ∧ progressPercent 50 100 = 50 := by
  constructor
  · exact (C5_level_bands 50 0 1).2.2.1 (by norm_num) (by norm_num)
  · have h := (C5_level_bands 50 (50 : Int) (100 : Int)).2.2.2.2.2.2 (by norm_num)
    rw [h]
    norm_num

lemma update_character_progress_ledger (new : LedgerEntry) (db : DB) :
    (update_character_progress new db).ledger = db.ledger := by
  unfold update_character_progress
  dsimp only
  split <;> rfl

lemma update_character_progress_history (new : LedgerEntry) (db : DB) :
    (update_character_progress new db).goal_history = db.goal_history := by
  unfold update_character_progress
  dsimp only
  split <;> rfl

lemma update_character_progress_points (new : LedgerEntry) (db : DB) :
    (update_character_progress new db).points = db.points := by
  unfold update_character_progress
  dsimp only
  split <;> rfl

lemma on_goal_achieved_ledger (new : GoalHistoryEntry) (db : DB) :
    (on_goal_achieved_update_character new db).ledger = db.ledger := by
  unfold on_goal_achieved_update_character
  dsimp only
  split <;> rfl

lemma on_goal_achieved_history (new : GoalHistoryEntry) (db : DB) :
    (on_goal_achieved_update_character new db).goal_history = db.goal_history := by
  unfold on_goal_achieved_update_character
  dsimp only
  split <;> rfl

lemma on_goal_achieved_points (new : GoalHistoryEntry) (db : DB) :
    (on_goal_achieved_update_character new db).points = db.points := by
  unfold on_goal_achieved_update_character
  dsimp only
  split <;> rfl

lemma ledgerInsert_ledger (e : LedgerEntry) (db : DB) :
    (ledgerInsert e db).ledger = db.ledger ++ [e] := by
  unfold ledgerInsert
  rw [update_character_progress_ledger]
  rfl

lemma ledgerInsert_history (e : LedgerEntry) (db : DB) :
    (ledgerInsert e db).goal_history = db.goal_history := by
  unfold ledgerInsert
  rw [update_character_progress_history]

lemma ledgerInsert_points (e : LedgerEntry) (db : DB) :
    (ledgerInsert e db).points = db.points := by
  unfold ledgerInsert
  rw [update_character_progress_points]

lemma goalInsert_ledger (g : GoalHistoryEntry) (db : DB) :
    (goalInsert g db).ledger = db.ledger := by
  unfold goalInsert
  rw [on_goal_achieved_ledger]

lemma goalInsert_history (g : GoalHistoryEntry) (db : DB) :
    (goalInsert g db).goal_history = db.goal_history ++ [g] := by
  unfold goalInsert
  rw [on_goal_achieved_history]

lemma goalInsert_points (g : GoalHistoryEntry) (db : DB) :
    (goalInsert g db).points = db.points := by
  unfold goalInsert
  rw [on_goal_achieved_points]

lemma achieveGoal_ledger (child : Nat) (T B : Int) (t : Nat) (db : DB) :
    (achieveGoal child T B t db).ledger =
      db.ledger ++ [⟨child, -T, Reason.goal_achieved_reset, none, t⟩] := by
  unfold achieveGoal
  rw [ledgerInsert_ledger, goalInsert_ledger]

lemma achieveGoal_history (child : Nat) (T B : Int) (t : Nat) (db : DB) :
    (achieveGoal child T B t db).goal_history = db.goal_history ++ [⟨child, T, B, t⟩] := by
  unfold achieveGoal
  rw [ledgerInsert_history, goalInsert_history]

lemma goalCount_append_match (child : Nat) (h : List GoalHistoryEntry)
    (g : GoalHistoryEntry) (hg : g.child_id = child) :
    goalCount child (h ++ [g]) = goalCount child h + 1 := by
  simp [goalCount, List.filter_append, hg]

lemma rolloverCount_append_match (child : Nat) (l : List LedgerEntry)
    (e : LedgerEntry) (hc : e.child_id = child)
    (hr : e.reason = Reason.goal_achieved_reset) :
    rolloverCount child (l ++ [e]) = rolloverCount child l + 1 := by
  simp [rolloverCount, List.filter_append, hc, hr]

lemma detect_fires (child : Nat) (T : Int) (t : Nat) (db : DB)
    (hT : 0 < T) (hB : T ≤ sumFor child db.ledger)
    (hfresh : dedupHit child (sumFor child db.ledger) t db.goal_history = false) :
    detectGoalAchievement child T t db =
      achieveGoal child T (sumFor child db.ledger) t db := by
  unfold detectGoalAchievement detectGoalObserved
  rw [if_neg, if_neg]
  · simp [hfresh]
  · push_neg
    exact ⟨hT, hB⟩

/-- C2. Invoking the goal-achievement detection sequence twice in immediate
succession for the same crossing (both invocations observing the same
balance, the second within the 60-second dedup window) produces exactly one
GoalHistory entry and exactly one compensating rollover ledger entry: the
second invocation recognizes the history entry with the same child, same
balance at achievement, and achieved_at within 60 seconds, and no-ops. -/
theorem C2_idempotent_achievement (child : Nat) (T : Int) (t t' : Nat) (db : DB)
    (hT : 0 < T) (hB : T ≤ sumFor child db.ledger)
    (hfresh : dedupHit child (sumFor child db.ledger) t db.goal_history = false)
    (ht : t ≤ t') (ht60 : t' ≤ t + 60) :
    detectGoalObserved child T (sumFor child db.ledger) t'
        (detectGoalAchievement child T t db) = detectGoalAchievement child T t db
    ∧ goalCount child (detectGoalAchievement child T t db).goal_history
        = goalCount child db.goal_history + 1
    ∧ rolloverCount child (detectGoalAchievement child T t db).ledger
        = rolloverCount child db.ledger + 1 := by
  rw [detect_fires child T t db hT hB hfresh]
  refine ⟨?_, ?_, ?_⟩
  · unfold detectGoalObserved
    rw [if_neg (by push_neg; exact ⟨hT, hB⟩)]
    rw [if_pos]
    rw [achieveGoal_history]
    unfold dedupHit
    simp only [List.any_append, List.any_cons, List.any_nil, Bool.or_false,
      beq_self_eq_true, Bool.true_and, Bool.and_eq_true, decide_eq_true_eq,
      Bool.or_eq_true]
    right
    omega
  · rw [achieveGoal_history, goalCount_append_match child _ _ rfl]
  · rw [achieveGoal_ledger, rolloverCount_append_match child _ _ rfl rfl]

/-- Witness for C2: child 1 with threshold 10 and a single +10 credit; the
detector fires at time 0 and a second invocation at time 30 no-ops. -/
theorem C2_idempotent_achievement_witness :
    detectGoalObserved 1 10 (sumFor 1 (DB.mk (fun _ => some 10) (fun _ => 0)
        [⟨1, 10, Reason.chore_approved, none, 0⟩] [] (fun _ => none)).ledger) 30
        (detectGoalAchievement 1 10 0 (DB.mk (fun _ => some 10) (fun _ => 0)
          [⟨1, 10, Reason.chore_approved, none, 0⟩] [] (fun _ => none)))
      = detectGoalAchievement 1 10 0 (DB.mk (fun _ => some 10) (fun _ => 0)
          [⟨1, 10, Reason.chore_approved, none, 0⟩] [] (fun _ => none))
    ∧ goalCount 1 (detectGoalAchievement 1 10 0 (DB.mk (fun _ => some 10) (fun _ => 0)
          [⟨1, 10, Reason.chore_approved, none, 0⟩] [] (fun _ => none))).goal_history
        = goalCount 1 [] + 1
    ∧ rolloverCount 1 (detectGoalAchievement 1 10 0 (DB.mk (fun _ => some 10) (fun _ => 0)
          [⟨1, 10, Reason.chore_approved, none, 0⟩] [] (fun _ => none))).ledger
        = rolloverCount 1 [⟨1, 10, Reason.chore_approved, none, 0⟩] + 1 :=
  C2_idempotent_achievement 1 10 0 30
    (DB.mk (fun _ => some 10) (fun _ => 0)
      [⟨1, 10, Reason.chore_approved, none, 0⟩] [] (fun _ => none))
    (by decide) (by decide) (by decide) (by decide) (by decide)

/-- C3. A goal achievement with threshold T at observed balance B appends
exactly one ledger entry with delta -T and reason goal_achieved_reset, and
the child's ledger sum immediately after the rollover equals B - T. -/
theorem C3_rollover_correct (child : Nat) (T : Int) (t : Nat) (db : DB)
    (hT : 0 < T) (hB : T ≤ sumFor child db.ledger)
    (hfresh : dedupHit child (sumFor child db.ledger) t db.goal_history = false) :
    (detectGoalAchievement child T t db).ledger
      = db.ledger ++ [⟨child, -T, Reason.goal_achieved_reset, none, t⟩]
    ∧ sumFor child (detectGoalAchievement child T t db).ledger
      = sumFor child db.ledger - T := by
  rw [detect_fires child T t db hT hB hfresh]
  constructor
  · exact achieveGoal_ledger child T _ t db
  · rw [achieveGoal_ledger, sumFor_append, sumFor_singleton]
    simp
    ring

/-- Witness for C3: with threshold 10 and balance 10, the rollover leaves
sum 0 and the appended row carries delta -10. -/
theorem C3_rollover_correct_witness :
    (detectGoalAchievement 1 10 0 (DB.mk (fun _ => some 10) (fun _ => 0)
        [⟨1, 10, Reason.chore_approved, none, 0⟩] [] (fun _ => none))).ledger
      = [⟨1, 10, Reason.chore_approved, none, 0⟩]
          ++ [⟨1, -10, Reason.goal_achieved_reset, none, 0⟩]
    ∧ sumFor 1 (detectGoalAchievement 1 10 0 (DB.mk (fun _ => some 10) (fun _ => 0)
        [⟨1, 10, Reason.chore_approved, none, 0⟩] [] (fun _ => none))).ledger
      = sumFor 1 [⟨1, 10, Reason.chore_approved, none, 0⟩] - 10 :=
  C3_rollover_correct 1 10 0
    (DB.mk (fun _ => some 10) (fun _ => 0)
      [⟨1, 10, Reason.chore_approved, none, 0⟩] [] (fun _ => none))
    (by decide) (by decide) (by decide)

lemma getSlotLevel_goalNumber (s n : Nat) (r : CharacterRow) :
    getSlotLevel s { r with current_goal_number := n } = getSlotLevel s r := by
  unfold getSlotLevel
  split_ifs <;> rfl

lemma getSlotLevel_default_getD (s : Nat) :
    (getSlotLevel s defaultCharacterRow).getD 1 = 1 := by
  unfold getSlotLevel defaultCharacterRow
  split_ifs <;> rfl

lemma slotLevelsOf_upsert (c n c' s : Nat) (m : Nat → Option CharacterRow) :
    slotLevelsOf (upsertGoalNumber c n m) c' s = slotLevelsOf m c' s := by
  unfold slotLevelsOf upsertGoalNumber
  by_cases h : c' = c
  · subst h
    cases hm : m c' with
    | none =>
        simp only [hm, if_pos, Option.some_bind, Option.none_bind, Option.getD_none]
        rw [getSlotLevel_goalNumber, getSlotLevel_default_getD]
    | some r => simp [hm, getSlotLevel_goalNumber]
  · simp [h]

lemma getSlotLevel_bump_mono (k l s : Nat) (r : CharacterRow) :
    (getSlotLevel s r).getD 1 ≤ (getSlotLevel s (bumpSlotLevel k l r)).getD 1 := by
  unfold getSlotLevel bumpSlotLevel
  split_ifs <;> simp <;> omega

lemma slotLevelsOf_bump_mono (c k l c' s : Nat) (m : Nat → Option CharacterRow) :
    slotLevelsOf m c' s ≤ slotLevelsOf (mapRow c (bumpSlotLevel k l) m) c' s := by
  unfold slotLevelsOf mapRow
  by_cases h : c' = c
  · subst h
    cases hm : m c' with
    | none => simp [hm]
    | some r => simpa [hm] using getSlotLevel_bump_mono k l s r
  · simp [h]

lemma getSlotLevel_force_mono (k s : Nat) (r : CharacterRow) (hr : RowLevelsOk r) :
    (getSlotLevel s r).getD 1 ≤ (getSlotLevel s (forceSlotLevel k 5 r)).getD 1 := by
  obtain ⟨h1, h2, h3⟩ := hr
  unfold getSlotLevel forceSlotLevel
  split_ifs <;> simp <;> omega

lemma slotLevelsOf_force_mono (c k c' s : Nat) (m : Nat → Option CharacterRow)
    (hm : ∀ r, m c = some r → RowLevelsOk r) :
    slotLevelsOf m c' s ≤ slotLevelsOf (mapRow c (forceSlotLevel k 5) m) c' s := by
  unfold slotLevelsOf mapRow
  by_cases h : c' = c
  · subst h
    cases hrow : m c' with
    | none => simp [hrow]
    | some r => simpa [hrow] using getSlotLevel_force_mono k s r (hm r hrow)
  · simp [h]

lemma rowLevelsOk_goalNumber (n : Nat) (r : CharacterRow) (hr : RowLevelsOk r) :
    RowLevelsOk { r with current_goal_number := n } := hr

lemma rowLevelsOk_default : RowLevelsOk defaultCharacterRow := by
  refine ⟨?_, ?_, ?_⟩ <;> decide

lemma rowLevelsOk_bump (k l : Nat) (hl : l ≤ 5) (r : CharacterRow)
    (hr : RowLevelsOk r) : RowLevelsOk (bumpSlotLevel k l r) := by
  obtain ⟨a, b, c, g⟩ := r
  obtain ⟨h1, h2, h3⟩ := hr
  unfold RowLevelsOk at *
  unfold bumpSlotLevel
  split_ifs <;> refine ⟨?_, ?_, ?_⟩ <;> dsimp only at * <;> omega

lemma rowLevelsOk_force (k : Nat) (r : CharacterRow) (hr : RowLevelsOk r) :
    RowLevelsOk (forceSlotLevel k 5 r) := by
  obtain ⟨a, b, c, g⟩ := r
  obtain ⟨h1, h2, h3⟩ := hr
  unfold RowLevelsOk at *
  unfold forceSlotLevel
  split_ifs <;> refine ⟨?_, ?_, ?_⟩ <;> dsimp only at * <;> omega

lemma upsert_levelsOk (c n : Nat) (m : Nat → Option CharacterRow)
    (hm : ∀ c' r, m c' = some r → RowLevelsOk r) :
    ∀ c' r, upsertGoalNumber c n m c' = some r → RowLevelsOk r := by
  intro c' r hr
  unfold upsertGoalNumber at hr
  by_cases h : c' = c
  · subst h
    rw [if_pos rfl] at hr
    cases hrow : m c' with
    | none =>
        rw [hrow] at hr
        simp only [Option.some.injEq] at hr
        subst hr
        exact rowLevelsOk_default
    | some r0 =>
        rw [hrow] at hr
        simp only [Option.some.injEq] at hr
        subst hr
        exact rowLevelsOk_goalNumber _ r0 (hm c' r0 hrow)
  · rw [if_neg h] at hr
    exact hm c' r hr

lemma mapRow_levelsOk (c : Nat) (f : CharacterRow → CharacterRow)
    (hf : ∀ r, RowLevelsOk r → RowLevelsOk (f r))
    (m : Nat → Option CharacterRow)
    (hm : ∀ c' r, m c' = some r → RowLevelsOk r) :
    ∀ c' r, mapRow c f m c' = some r → RowLevelsOk r := by
  intro c' r hr
  unfold mapRow at hr
  by_cases h : c' = c
  · subst h
    rw [if_pos rfl] at hr
    cases hrow : m c' with
    | none => rw [hrow] at hr; simp at hr
    | some r0 =>
        rw [hrow] at hr
        simp only [Option.map_some', Option.some.injEq] at hr
        subst hr
        exact hf r0 (hm c' r0 hrow)
  · rw [if_neg h] at hr
    exact hm c' r hr

lemma update_character_progress_obs_mono (new : LedgerEntry) (db : DB) (c s : Nat) :
    obsLevel c s db ≤ obsLevel c s (update_character_progress new db) := by
  unfold obsLevel update_character_progress
  dsimp only
  split
  · exact le_of_eq (slotLevelsOf_upsert _ _ _ _ _).symm
  · rw [← slotLevelsOf_upsert new.child_id (goalCount new.child_id db.goal_history + 1)
      c s db.character_progress]
    exact slotLevelsOf_bump_mono _ _ _ _ _ _

lemma update_character_progress_levelsOk (new : LedgerEntry) (db : DB)
    (h : LevelsOk db) : LevelsOk (update_character_progress new db) := by
  unfold LevelsOk at *
  unfold update_character_progress
  dsimp only
  split
  · intro c r hr
    exact upsert_levelsOk _ _ _ h c r hr
  · intro c r hr
    refine mapRow_levelsOk _ _ ?_ _ (upsert_levelsOk _ _ _ h) c r hr
    intro r0 hr0
    exact rowLevelsOk_bump _ _ (calculate_character_level_bounds _).2 r0 hr0

lemma on_goal_achieved_obs_mono (new : GoalHistoryEntry) (db : DB)
    (hwf : LevelsOk db) (c s : Nat) :
    obsLevel c s db ≤ obsLevel c s (on_goal_achieved_update_character new db) := by
  unfold obsLevel on_goal_achieved_update_character
  dsimp only
  split
  · exact le_refl _
  · rw [← slotLevelsOf_upsert new.child_id (goalCount new.child_id db.goal_history + 1)
      c s db.character_progress]
    exact slotLevelsOf_force_mono _ _ _ _ _
      (fun r hr => upsert_levelsOk _ _ _ hwf _ r hr)

lemma on_goal_achieved_levelsOk (new : GoalHistoryEntry) (db : DB)
    (h : LevelsOk db) : LevelsOk (on_goal_achieved_update_character new db) := by
  unfold LevelsOk at *
  unfold on_goal_achieved_update_character
  dsimp only
  split
  · exact h
  · intro c r hr
    refine mapRow_levelsOk _ _ ?_ _ (upsert_levelsOk _ _ _ h) c r hr
    intro r0 hr0
    exact rowLevelsOk_force _ r0 hr0

lemma stepEvent_obs_mono (db : DB) (ev : Event) (hwf : LevelsOk db) (c s : Nat) :
    obsLevel c s db ≤ obsLevel c s (stepEvent db ev) := by
  cases ev with
  | ledgerAppend e =>
      exact update_character_progress_obs_mono e
        { db with ledger := appendEntry e db.ledger } c s
  | goalAchieved g =>
      exact on_goal_achieved_obs_mono g
        { db with goal_history := db.goal_history ++ [g] } hwf c s

lemma stepEvent_levelsOk (db : DB) (ev : Event) (hwf : LevelsOk db) :
    LevelsOk (stepEvent db ev) := by
  cases ev with
  | ledgerAppend e =>
      exact update_character_progress_levelsOk e
        { db with ledger := appendEntry e db.ledger } hwf
  | goalAchieved g =>
      exact on_goal_achieved_levelsOk g
        { db with goal_history := db.goal_history ++ [g] } hwf

lemma runEvents_levelsOk (evs : List Event) (db : DB) (hwf : LevelsOk db) :
    LevelsOk (runEvents evs db) := by
  induction evs generalizing db with
  | nil => exact hwf
  | cons ev evs ih => exact ih (stepEvent db ev) (stepEvent_levelsOk db ev hwf)

lemma runEvents_obs_mono (evs : List Event) (db : DB) (hwf : LevelsOk db) (c s : Nat) :
    obsLevel c s db ≤ obsLevel c s (runEvents evs db) := by
  induction evs generalizing db with
  | nil => exact le_refl _
  | cons ev evs ih =>
      calc obsLevel c s db
          ≤ obsLevel c s (stepEvent db ev) := stepEvent_obs_mono db ev hwf c s
        _ ≤ obsLevel c s (runEvents evs (stepEvent db ev)) :=
            ih (stepEvent db ev) (stepEvent_levelsOk db ev hwf)

/-- C4. For every child and slot, the observed evolution level never
decreases across any sequence of ledger appends and goal achievements:
starting from any database whose rows satisfy the level CHECK bound, a level
observed after more events is at least the level observed earlier, even if
intervening entries reduce the balance. -/
theorem C4_monotonic_levels (db : DB) (evs evs' : List Event) (child slot : Nat)
    (hwf : LevelsOk db) :
    obsLevel child slot (runEvents evs db)
      ≤ obsLevel child slot (runEvents (evs ++ evs') db) := by
  have hrun : runEvents (evs ++ evs') db = runEvents evs' (runEvents evs db) := by
    unfold runEvents
    rw [List.foldl_append]
  rw [hrun]
  exact runEvents_obs_mono evs' (runEvents evs db)
    (runEvents_levelsOk evs db hwf) child slot

/-- Witness for C4: a +50 credit toward a 100-point goal lifts slot 1 to
level 3, and a subsequent -40 manual adjustment does not lower it. -/
theorem C4_monotonic_levels_witness :
    obsLevel 1 1 (runEvents
        [Event.ledgerAppend ⟨1, 50, Reason.chore_approved, none, 0⟩]
        (DB.mk (fun _ => some 100) (fun _ => 0) [] [] (fun _ => none)))
      ≤ obsLevel 1 1 (runEvents
        ([Event.ledgerAppend ⟨1, 50, Reason.chore_approved, none, 0⟩]
          ++ [Event.ledgerAppend ⟨1, -40, Reason.manual_adjustment, none, 1⟩])
        (DB.mk (fun _ => some 100) (fun _ => 0) [] [] (fun _ => none))) :=
  C4_monotonic_levels
    (DB.mk (fun _ => some 100) (fun _ => 0) [] [] (fun _ => none))
    [Event.ledgerAppend ⟨1, 50, Reason.chore_approved, none, 0⟩]
    [Event.ledgerAppend ⟨1, -40, Reason.manual_adjustment, none, 1⟩]
    1 1 (fun c r hr => Option.noConfusion hr)

lemma upsertGoalNumber_other (c n c' : Nat) (m : Nat → Option CharacterRow)
    (h : c' ≠ c) : upsertGoalNumber c n m c' = m c' := by
  unfold upsertGoalNumber
  rw [if_neg h]

lemma mapRow_other (c : Nat) (f : CharacterRow → CharacterRow) (c' : Nat)
    (m : Nat → Option CharacterRow) (h : c' ≠ c) : mapRow c f m c' = m c' := by
  unfold mapRow
  rw [if_neg h]

lemma goalCount_le_append (child : Nat) (h l : List GoalHistoryEntry) :
    goalCount child h ≤ goalCount child (h ++ l) := by
  unfold goalCount
  rw [List.filter_append, List.length_append]
  omega

lemma stepEvent_capped (db : DB) (child : Nat) (ev : Event)
    (hcount : 3 < goalCount child db.goal_history) :
    3 < goalCount child (stepEvent db ev).goal_history
    ∧ ∀ r, db.character_progress child = some r →
        ∃ r', (stepEvent db ev).character_progress child = some r'
          ∧ r'.slot1_level = r.slot1_level ∧ r'.slot2_level = r.slot2_level
          ∧ r'.slot3_level = r.slot3_level := by
  cases ev with
  | ledgerAppend e =>
      constructor
      · show 3 < goalCount child (ledgerInsert e db).goal_history
        rw [ledgerInsert_history]
        exact hcount
      · intro r hr
        show ∃ r', (ledgerInsert e db).character_progress child = some r' ∧ _
        unfold ledgerInsert update_character_progress
        dsimp only
        by_cases hc : e.child_id = child
        · subst hc
          rw [if_pos (by omega)]
          dsimp only
          unfold upsertGoalNumber
          rw [if_pos rfl, hr]
          exact ⟨_, rfl, rfl, rfl, rfl⟩
        · have hne : child ≠ e.child_id := fun h => hc h.symm
          split
          · dsimp only
            rw [upsertGoalNumber_other _ _ _ _ hne, hr]
            exact ⟨r, rfl, rfl, rfl, rfl⟩
          · dsimp only
            rw [mapRow_other _ _ _ _ hne, upsertGoalNumber_other _ _ _ _ hne, hr]
            exact ⟨r, rfl, rfl, rfl, rfl⟩
  | goalAchieved g =>
      constructor
      · show 3 < goalCount child (goalInsert g db).goal_history
        rw [goalInsert_history]
        exact lt_of_lt_of_le hcount (goalCount_le_append child db.goal_history [g])
      · intro r hr
        show ∃ r', (goalInsert g db).character_progress child = some r' ∧ _
        unfold goalInsert on_goal_achieved_update_character
        dsimp only
        by_cases hc : g.child_id = child
        · subst hc
          rw [if_pos]
          · exact ⟨r, hr, rfl, rfl, rfl⟩
          · rw [goalCount_append_match g.child_id db.goal_history g rfl]
            omega
        · have hne : child ≠ g.child_id := fun h => hc h.symm
          split
          · exact ⟨r, hr, rfl, rfl, rfl⟩
          · dsimp only
            rw [mapRow_other _ _ _ _ hne, upsertGoalNumber_other _ _ _ _ hne, hr]
            exact ⟨r, rfl, rfl, rfl, rfl⟩

lemma runEvents_capped (evs : List Event) (db : DB) (child : Nat)
    (hcount : 3 < goalCount child db.goal_history) :
    ∀ r, db.character_progress child = some r →
      ∃ r', (runEvents evs db).character_progress child = some r'
        ∧ r'.slot1_level = r.slot1_level ∧ r'.slot2_level = r.slot2_level
        ∧ r'.slot3_level = r.slot3_level := by
  induction evs generalizing db with
  | nil => exact fun r hr => ⟨r, hr, rfl, rfl, rfl⟩
  | cons ev evs ih =>
      intro r hr
      obtain ⟨hcount', hstep⟩ := stepEvent_capped db child ev hcount
      obtain ⟨r1, hr1, e1, e2, e3⟩ := hstep r hr
      obtain ⟨r2, hr2, f1, f2, f3⟩ := ih (stepEvent db ev) hcount' r1 hr1
      exact ⟨r2, hr2, by rw [f1, e1], by rw [f2, e2], by rw [f3, e3]⟩

/-- C6. Once a child's achieved-goal count exceeds 3: no 4th evolution slot
exists (the row has no slot-4 column), no subsequent sequence of ledger
appends and goal achievements changes the levels of slots 1-3 (a further
append for the child only moves current_goal_number, a further goal
achievement leaves character_progress entirely unchanged), and the ledger
append and the GoalHistory entry are still recorded. -/
theorem C6_slot_cap (db : DB) (child : Nat) (r : CharacterRow)
    (hcount : 3 < goalCount child db.goal_history)
    (hrow : db.character_progress child = some r)
    (e : LedgerEntry) (he : e.child_id = child)
    (g : GoalHistoryEntry) (hg : g.child_id = child) (evs : List Event) :
    (∀ row : CharacterRow, getSlotLevel 4 row = none)
    ∧ (∃ r', (runEvents evs db).character_progress child = some r'
        ∧ r'.slot1_level = r.slot1_level ∧ r'.slot2_level = r.slot2_level
        ∧ r'.slot3_level = r.slot3_level)
    ∧ (ledgerInsert e db).ledger = db.ledger ++ [e]
    ∧ (goalInsert g db).character_progress = db.character_progress
    ∧ (goalInsert g db).goal_history = db.goal_history ++ [g]
    ∧ (goalInsert g db).ledger = db.ledger := by
  refine ⟨?_, runEvents_capped evs db child hcount r hrow,
    ledgerInsert_ledger e db, ?_, goalInsert_history g db, goalInsert_ledger g db⟩
  · intro row
    unfold getSlotLevel
    norm_num
  · unfold goalInsert on_goal_achieved_update_character
    dsimp only
    rw [if_pos]
    rw [goalCount_append_match g.child_id db.goal_history g rfl, hg]
    omega

/-- Witness for C6 at a concrete state: child 1 with four achieved goals. -/
theorem C6_slot_cap_witness :
    (∀ row : CharacterRow, getSlotLevel 4 row = none)
    ∧ (∃ r', (runEvents [Event.ledgerAppend ⟨1, 5, Reason.chore_approved, none, 9⟩]
        (DB.mk (fun _ => some 10) (fun _ => 0) []
          [⟨1, 10, 10, 0⟩, ⟨1, 10, 10, 1⟩, ⟨1, 10, 10, 2⟩, ⟨1, 10, 10, 3⟩]
          (fun _ => some ⟨5, 5, 5, 4⟩))).character_progress 1 = some r'
        ∧ r'.slot1_level = (⟨5, 5, 5, 4⟩ : CharacterRow).slot1_level
        ∧ r'.slot2_level = (⟨5, 5, 5, 4⟩ : CharacterRow).slot2_level
        ∧ r'.slot3_level = (⟨5, 5, 5, 4⟩ : CharacterRow).slot3_level)
    ∧ (ledgerInsert ⟨1, 5, Reason.chore_approved, none, 9⟩
        (DB.mk (fun _ => some 10) (fun _ => 0) []
          [⟨1, 10, 10, 0⟩, ⟨1, 10, 10, 1⟩, ⟨1, 10, 10, 2⟩, ⟨1, 10, 10, 3⟩]
          (fun _ => some ⟨5, 5, 5, 4⟩))).ledger
        = [] ++ [⟨1, 5, Reason.chore_approved, none, 9⟩]
    ∧ (goalInsert ⟨1, 10, 12, 9⟩
        (DB.mk (fun _ => some 10) (fun _ => 0) []
          [⟨1, 10, 10, 0⟩, ⟨1, 10, 10, 1⟩, ⟨1, 10, 10, 2⟩, ⟨1, 10, 10, 3⟩]
          (fun _ => some ⟨5, 5, 5, 4⟩))).character_progress
        = (DB.mk (fun _ => some 10) (fun _ => 0) []
          [⟨1, 10, 10, 0⟩, ⟨1, 10, 10, 1⟩, ⟨1, 10, 10, 2⟩, ⟨1, 10, 10, 3⟩]
          (fun _ => some ⟨5, 5, 5, 4⟩)).character_progress
    ∧ (goalInsert ⟨1, 10, 12, 9⟩
        (DB.mk (fun _ => some 10) (fun _ => 0) []
          [⟨1, 10, 10, 0⟩, ⟨1, 10, 10, 1⟩, ⟨1, 10, 10, 2⟩, ⟨1, 10, 10, 3⟩]
          (fun _ => some ⟨5, 5, 5, 4⟩))).goal_history
        = [⟨1, 10, 10, 0⟩, ⟨1, 10, 10, 1⟩, ⟨1, 10, 10, 2⟩, ⟨1, 10, 10, 3⟩]
          ++ [⟨1, 10, 12, 9⟩]
    ∧ (goalInsert ⟨1, 10, 12, 9⟩
        (DB.mk (fun _ => some 10) (fun _ => 0) []
          [⟨1, 10, 10, 0⟩, ⟨1, 10, 10, 1⟩, ⟨1, 10, 10, 2⟩, ⟨1, 10, 10, 3⟩]
          (fun _ => some ⟨5, 5, 5, 4⟩))).ledger
        = [] :=
  C6_slot_cap
    (DB.mk (fun _ => some 10) (fun _ => 0) []
      [⟨1, 10, 10, 0⟩, ⟨1, 10, 10, 1⟩, ⟨1, 10, 10, 2⟩, ⟨1, 10, 10, 3⟩]
      (fun _ => some ⟨5, 5, 5, 4⟩))
    1 ⟨5, 5, 5, 4⟩ (by decide) rfl
    ⟨1, 5, Reason.chore_approved, none, 9⟩ rfl
    ⟨1, 10, 12, 9⟩ rfl
    [Event.ledgerAppend ⟨1, 5, Reason.chore_approved, none, 9⟩]

/-- C8. The points-award step of `update_child_points` fires exactly on a
transition of the submission status into approved: it then appends exactly
one chore_approved entry (worth COALESCE(chore.points, 10)); an update whose
old status is already approved, or whose new status is not approved, leaves
the database unchanged, so re-delivering the same approval is a no-op. -/
theorem C8_award_once_per_transition (old_status : Option String)
    (new_status : String) (child submission : Nat) (cp : Option Int)
    (now : Nat) (db : DB) :
    (new_status = "approved" → old_status ≠ some "approved" →
      (update_child_points old_status new_status child submission cp now db).ledger
        = db.ledger ++ [⟨child, cp.getD 10, Reason.chore_approved, some submission, now⟩])
    ∧ (old_status = some "approved" →
        update_child_points old_status new_status child submission cp now db = db)
    ∧ (new_status ≠ "approved" →
        update_child_points old_status new_status child submission cp now db = db) := by
  refine ⟨?_, ?_, ?_⟩
  · intro h1 h2
    unfold update_child_points
    rw [if_pos ⟨h1, h2⟩]
    dsimp only
    rw [ledgerInsert_ledger]
  · intro h
    unfold update_child_points
    rw [if_neg]
    rintro ⟨-, hb⟩
    exact hb (by rw [h])
  · intro h
    unfold update_child_points
    rw [if_neg]
    rintro ⟨ha, -⟩
    exact h ha

/-- Witness for C8: approving a pending submission appends one +10 entry;
repeating the update on an already-approved submission changes nothing. -/
theorem C8_award_once_per_transition_witness :
    (update_child_points (some "pending") "approved" 1 7 (some 10) 3
        (DB.mk (fun _ => some 100) (fun _ => 0) [] [] (fun _ => none))).ledger
      = [] ++ [⟨1, 10, Reason.chore_approved, some 7, 3⟩]
    ∧ update_child_points (some "approved") "approved" 1 7 (some 10) 3
        (DB.mk (fun _ => some 100) (fun _ => 0) [] [] (fun _ => none))
      = DB.mk (fun _ => some 100) (fun _ => 0) [] [] (fun _ => none) := by
  constructor
  · have h := (C8_award_once_per_transition (some "pending") "approved" 1 7
      (some 10) 3 (DB.mk (fun _ => some 100) (fun _ => 0) [] [] (fun _ => none))).1
      rfl (by decide)
    rw [h]
    rfl
  · exact (C8_award_once_per_transition (some "approved") "approved" 1 7
      (some 10) 3 (DB.mk (fun _ => some 100) (fun _ => 0) [] [] (fun _ => none))).2.1 rfl

lemma on_goal_achieved_eq_writes (new : GoalHistoryEntry) (db : DB) :
    on_goal_achieved_update_character new db =
      { db with character_progress :=
          (on_goal_achieved_writes new db).foldl applyProgressWrite db.character_progress } := by
  unfold on_goal_achieved_update_character on_goal_achieved_writes
  dsimp only
  split <;> rfl

lemma force_after_upsert (c n : Nat) (m : Nat → Option CharacterRow)
    (hn : n = 1 ∨ n = 2 ∨ n = 3) :
    slotLevelsOf (mapRow c (forceSlotLevel n 5) (upsertGoalNumber c (n + 1) m)) c n = 5
    ∧ ∃ r', mapRow c (forceSlotLevel n 5) (upsertGoalNumber c (n + 1) m) c = some r'
        ∧ r'.current_goal_number = n + 1 := by
  unfold slotLevelsOf mapRow upsertGoalNumber
  dsimp only
  rw [if_pos rfl, if_pos rfl]
  cases hm : m c with
  | none =>
      rcases hn with h | h | h <;> subst h <;>
        exact ⟨rfl, _, rfl, rfl⟩
  | some r =>
      rcases hn with h | h | h <;> subst h <;>
        exact ⟨rfl, _, rfl, rfl⟩

/-- C9 counterexample: at a concrete first achievement for child 1, the
trace of `on_goal_achieved_update_character` places the slot-index advance
strictly before the level-5 write, so the claim that the level-5 write
happens before the advance is false. -/
theorem C9_write_order_counterexample :
    occursBefore isLevel5Write isAdvanceWrite
      (on_goal_achieved_writes ⟨1, 10, 10, 0⟩
        (DB.mk (fun _ => some 10) (fun _ => 0) [] [⟨1, 10, 10, 0⟩] (fun _ => none)))
      = false
    ∧ occursBefore isAdvanceWrite isLevel5Write
      (on_goal_achieved_writes ⟨1, 10, 10, 0⟩
        (DB.mk (fun _ => some 10) (fun _ => 0) [] [⟨1, 10, 10, 0⟩] (fun _ => none)))
      = true := by
  constructor
  · rfl
  · rfl

/-- C9 amended. On a goal achievement within the three tracked slots, the
slot that was current before the index advance is set to exactly level 5
unconditionally, and the writes happen in the opposite order to the claim:
the trigger first advances current_goal_number and then performs the
level-5 write, within one atomic trigger invocation. -/
theorem C9_level5_forced_after_advance (db : DB) (g : GoalHistoryEntry)
    (hcount : goalCount g.child_id (db.goal_history ++ [g]) ≤ 3) :
    on_goal_achieved_writes g { db with goal_history := db.goal_history ++ [g] }
      = [ProgressWrite.advanceGoalNumber g.child_id
            (goalCount g.child_id (db.goal_history ++ [g]) + 1),
         ProgressWrite.writeSlotLevel g.child_id
            (goalCount g.child_id (db.goal_history ++ [g])) 5]
    ∧ obsLevel g.child_id (goalCount g.child_id (db.goal_history ++ [g]))
        (goalInsert g db) = 5
    ∧ (∃ r', (goalInsert g db).character_progress g.child_id = some r'
        ∧ r'.current_goal_number = goalCount g.child_id (db.goal_history ++ [g]) + 1) := by
  have hge : 1 ≤ goalCount g.child_id (db.goal_history ++ [g]) := by
    rw [goalCount_append_match g.child_id db.goal_history g rfl]
    omega
  have hn : goalCount g.child_id (db.goal_history ++ [g]) = 1
      ∨ goalCount g.child_id (db.goal_history ++ [g]) = 2
      ∨ goalCount g.child_id (db.goal_history ++ [g]) = 3 := by omega
  refine ⟨?_, ?_⟩
  · unfold on_goal_achieved_writes
    dsimp only
    rw [if_neg (by omega)]
  · have h := force_after_upsert g.child_id
      (goalCount g.child_id (db.goal_history ++ [g])) db.character_progress hn
    unfold goalInsert on_goal_achieved_update_character obsLevel
    dsimp only
    rw [if_neg (by omega)]
    exact h

/-- Witness for C9 amended: the first achievement of child 1 advances the
goal number to 2 and forces slot 1 to level 5. -/
theorem C9_level5_forced_after_advance_witness :
    on_goal_achieved_writes ⟨1, 10, 10, 0⟩
        { DB.mk (fun _ => some 10) (fun _ => 0) [] [] (fun _ => none) with
            goal_history := [] ++ [⟨1, 10, 10, 0⟩] }
      = [ProgressWrite.advanceGoalNumber 1 (goalCount 1 ([] ++ [⟨1, 10, 10, 0⟩]) + 1),
         ProgressWrite.writeSlotLevel 1 (goalCount 1 ([] ++ [⟨1, 10, 10, 0⟩])) 5]
    ∧ obsLevel 1 (goalCount 1 ([] ++ [(⟨1, 10, 10, 0⟩ : GoalHistoryEntry)]))
        (goalInsert ⟨1, 10, 10, 0⟩
          (DB.mk (fun _ => some 10) (fun _ => 0) [] [] (fun _ => none))) = 5
    ∧ (∃ r', (goalInsert ⟨1, 10, 10, 0⟩
          (DB.mk (fun _ => some 10) (fun _ => 0) [] [] (fun _ => none))).character_progress 1
            = some r'
        ∧ r'.current_goal_number = goalCount 1 ([] ++ [(⟨1, 10, 10, 0⟩ : GoalHistoryEntry)]) + 1) :=
  C9_level5_forced_after_advance
    (DB.mk (fun _ => some 10) (fun _ => 0) [] [] (fun _ => none))
    ⟨1, 10, 10, 0⟩ (by decide)

/-- C10. A child whose goal_points is NULL is treated by
`update_character_progress` exactly as a child whose goal threshold is 100:
the COALESCE default makes the effective threshold 100, and the whole
character-progress update is identical to the one for an explicit 100-point
goal, so slot levels still advance toward an implicit 100-point goal. -/
theorem C10_null_goal_defaults_to_100 (db : DB) (e : LedgerEntry)
    (hnull : db.goal_points e.child_id = none) :
    ((db.goal_points e.child_id).getD 100 : Int) = 100
    ∧ (ledgerInsert e db).character_progress =
        (ledgerInsert e { db with goal_points :=
            fun c => if c = e.child_id then some 100 else db.goal_points c
          }).character_progress := by
  constructor
  · rw [hnull]
    rfl
  · unfold ledgerInsert update_character_progress
    dsimp only
    rw [hnull]
    simp only [eq_self_iff_true, if_true, Option.getD_none, Option.getD_some]
    split <;> rfl

/-- Witness for C10: a child with NULL goal_points receiving a +50 credit is
updated exactly as with an explicit 100-point goal, and its slot 1 reaches
level 3 (50 percent of the implicit 100-point goal). -/
theorem C10_null_goal_defaults_to_100_witness :
    (((DB.mk (fun _ => none) (fun _ => 0) [] [] (fun _ => none)).goal_points 1).getD 100 : Int)
        = 100
    ∧ (ledgerInsert ⟨1, 50, Reason.chore_approved, none, 0⟩
          (DB.mk (fun _ => none) (fun _ => 0) [] [] (fun _ => none))).character_progress =
        (ledgerInsert ⟨1, 50, Reason.chore_approved, none, 0⟩
          { DB.mk (fun _ => none) (fun _ => 0) [] [] (fun _ => none) with
              goal_points := fun c => if c = 1 then some 100 else none
          }).character_progress :=
  C10_null_goal_defaults_to_100
    (DB.mk (fun _ => none) (fun _ => 0) [] [] (fun _ => none))
    ⟨1, 50, Reason.chore_approved, none, 0⟩ rfl

lemma achieveGoal_points (c : Nat) (T B : Int) (t : Nat) (db : DB) :
    (achieveGoal c T B t db).points = db.points := by
  unfold achieveGoal
  rw [ledgerInsert_points, goalInsert_points]

/-- C7 counterexample: starting from an empty ledger with cached points 0
and goal threshold 10, a chore approval (+10, which re-syncs the cache)
followed by the goal-achievement rollover (-10, which does not touch the
cache) leaves the cached children.points at 10 while the ledger sum is 0:
the cached counter drifts from the authoritative sum. -/
theorem C7_cache_drift_counterexample :
    (detectGoalAchievement 1 10 5
        (update_child_points (some "pending") "approved" 1 7 (some 10) 0
          (DB.mk (fun _ => some 10) (fun _ => 0) [] [] (fun _ => none)))).points 1
      ≠ sumFor 1 (detectGoalAchievement 1 10 5
        (update_child_points (some "pending") "approved" 1 7 (some 10) 0
          (DB.mk (fun _ => some 10) (fun _ => 0) [] [] (fun _ => none)))).ledger := by
  decide

/-- C7 amended. The approval path does keep the cache synced: after
`update_child_points` fires on a transition into approved, the cached
children.points of the child equals the child's ledger sum; the full
invariant fails only for ledger writes outside this path (see the
counterexample: the rollover append leaves the cache stale). -/
theorem C7_cache_synced_on_approval (old_status : Option String)
    (new_status : String) (child submission : Nat) (cp : Option Int)
    (now : Nat) (db : DB)
    (h1 : new_status = "approved") (h2 : old_status ≠ some "approved") :
    (update_child_points old_status new_status child submission cp now db).points child
      = sumFor child
        (update_child_points old_status new_status child submission cp now db).ledger := by
  unfold update_child_points
  rw [if_pos ⟨h1, h2⟩]
  dsimp only
  rw [if_pos rfl]

/-- Witness for C7 amended: after approving a submission for child 1 the
cached counter equals the ledger sum. -/
theorem C7_cache_synced_on_approval_witness :
    (update_child_points (some "pending") "approved" 1 7 (some 10) 0
        (DB.mk (fun _ => some 10) (fun _ => 0) [] [] (fun _ => none))).points 1
      = sumFor 1 (update_child_points (some "pending") "approved" 1 7 (some 10) 0
        (DB.mk (fun _ => some 10) (fun _ => 0) [] [] (fun _ => none))).ledger :=
  C7_cache_synced_on_approval (some "pending") "approved" 1 7 (some 10) 0
    (DB.mk (fun _ => some 10) (fun _ => 0) [] [] (fun _ => none))
    rfl (by decide)
